import Mathlib

/-!
Verification development for the uncovr endpoint-registration and
request-dispatch engine.  The definitions below are shallow embeddings of
the Rust sources: `src/api/response.rs`, `src/server/params.rs`,
`src/context/context.rs`, `src/server/endpoint.rs` and
`src/server/builder.rs`.  External collaborators (serde_json, axum, aide,
std) are modelled by the minimal structure the embedded code observes.
-/

namespace Uncovr

/-- A JSON value (serde_json::Value, external collaborator).  Only the
shapes the embedded code produces or inspects are needed. -/
inductive Json where
  | null : Json
  | bool (b : Bool) : Json
  | num (n : Int) : Json
  | str (s : String) : Json
  | arr (elems : List Json) : Json
  | obj (fields : List (String × Json)) : Json

/-- Field lookup in a JSON object; `none` on non-objects or absent keys. -/
def Json.lookup (j : Json) (key : String) : Option Json :=
  match j with
  | .obj fields => fields.lookup key
  | _ => none

/-- The field names of a JSON object, in serialization order. -/
def Json.fieldNames (j : Json) : List String :=
  match j with
  | .obj fields => fields.map Prod.fst
  | _ => []

/-- `ErrorDetails` from `src/api/response.rs`: error code, human message and
optional structured details.  `details` carries
`serde(skip_serializing_if = Option::is_none)`. -/
structure ErrorDetails where
  error : String
  message : String
  details : Option Json

/-- Serde serialization of `ErrorDetails`: the `details` field is skipped
when it is `none`. -/
def ErrorDetails.toJson (d : ErrorDetails) : Json :=
  .obj ([("error", .str d.error), ("message", .str d.message)] ++
    (match d.details with
     | some v => [("details", v)]
     | none => []))

/-- `SimpleError` from `src/api/response.rs`: the body emitted for the
string-based error variants. -/
structure SimpleError where
  error : String
  message : String
deriving DecidableEq

/-- Serde serialization of `SimpleError`. -/
def SimpleError.toJson (e : SimpleError) : Json :=
  .obj [("error", .str e.error), ("message", .str e.message)]

/-- `ApiResponse<T>` from `src/api/response.rs`, the response envelope: the
complete list of variants of the enum. -/
inductive ApiResponse (T : Type) where
  | Ok (data : T) : ApiResponse T
  | Created (data : T) : ApiResponse T
  | NoContent : ApiResponse T
  | BadRequest (msg : String) : ApiResponse T
  | BadRequestWithDetails (details : ErrorDetails) : ApiResponse T
  | Unauthorized (msg : String) : ApiResponse T
  | Forbidden (msg : String) : ApiResponse T
  | NotFound (msg : String) : ApiResponse T
  | Conflict (msg : String) : ApiResponse T
  | UnprocessableEntity (msg : String) : ApiResponse T
  | UnprocessableEntityWithDetails (details : ErrorDetails) : ApiResponse T
  | InternalError (msg : String) : ApiResponse T
  | ServiceUnavailable (msg : String) : ApiResponse T

/-- The body of a wire response produced by `ApiResponse::into_response`:
either the JSON-serialized success payload, a serialized `SimpleError`, a
serialized `ErrorDetails`, or no body at all. -/
inductive WireBody (T : Type) where
  | payload (data : T) : WireBody T
  | simple (e : SimpleError) : WireBody T
  | details (d : ErrorDetails) : WireBody T
  | empty : WireBody T

/-- The JSON rendering of an error body; the success payload depends on the
caller-supplied `Serialize` instance and is not rendered here. -/
def WireBody.errorJson {T : Type} : WireBody T → Option Json
  | .simple e => some e.toJson
  | .details d => some d.toJson
  | .payload _ => none
  | .empty => none

/-- A wire-level response: status code plus body, as produced by the
`IntoResponse` implementation. -/
structure WireResponse (T : Type) where
  status : Nat
  body : WireBody T

/-- `ApiResponse::into_response` from `src/api/response.rs` lines 200-291:
the status code and body emitted for each variant. -/
def ApiResponse.into_response {T : Type} : ApiResponse T → WireResponse T
  | .Ok data => ⟨200, .payload data⟩
  | .Created data => ⟨201, .payload data⟩
  | .NoContent => ⟨204, .empty⟩
  | .BadRequest msg => ⟨400, .simple ⟨"bad_request", msg⟩⟩
  | .BadRequestWithDetails d => ⟨400, .details d⟩
  | .Unauthorized msg => ⟨401, .simple ⟨"unauthorized", msg⟩⟩
  | .Forbidden msg => ⟨403, .simple ⟨"forbidden", msg⟩⟩
  | .NotFound msg => ⟨404, .simple ⟨"not_found", msg⟩⟩
  | .Conflict msg => ⟨409, .simple ⟨"conflict", msg⟩⟩
  | .UnprocessableEntity msg => ⟨422, .simple ⟨"unprocessable_entity", msg⟩⟩
  | .UnprocessableEntityWithDetails d => ⟨422, .details d⟩
  | .InternalError msg => ⟨500, .simple ⟨"internal_error", msg⟩⟩
  | .ServiceUnavailable msg => ⟨503, .simple ⟨"service_unavailable", msg⟩⟩

/-- Whether a variant belongs to the client-error or server-error families
(the 4xx and 5xx rows of the status table). -/
def ApiResponse.isError {T : Type} : ApiResponse T → Bool
  | .Ok _ => false
  | .Created _ => false
  | .NoContent => false
  | _ => true

/-- The complete set of status codes reachable from
`ApiResponse::into_response`. -/
def uncovrStatuses : List Nat :=
  [200, 201, 204, 400, 401, 403, 404, 409, 422, 500, 503]

/-- `std::collections::HashMap<String, String>`, modelled as an association
list; lookup returns the first binding (a HashMap holds unique keys). -/
structure StrMap where
  entries : List (String × String)
deriving DecidableEq

/-- `HashMap::get` composed with `as_str`. -/
def StrMap.find? (m : StrMap) (key : String) : Option String :=
  m.entries.lookup key

/-- `ParamError` from `src/server/params.rs` lines 201-212. -/
inductive ParamError where
  | Missing (key : String) : ParamError
  | InvalidType (key : String) (value : String) (expected : String) : ParamError
deriving DecidableEq

/-- Model of Rust `u64::from_str` (std, external collaborator): an optional
leading plus sign, then one or more ASCII digits, rejected on any other
character, on the empty digit string and on overflow past `u64::MAX`. -/
def parseU64 (s : String) : Option Nat :=
  let chars := s.data
  let digits := match chars with
    | '+' :: rest => rest
    | _ => chars
  if digits.isEmpty then none
  else if digits.all Char.isDigit then
    let n := digits.foldl (fun acc c => acc * 10 + (c.toNat - 48)) 0
    if n < 2 ^ 64 then some n else none
  else none

/-- `Path` from `src/server/params.rs`: path parameters extracted from the
URL, wrapping a `HashMap<String, String>`. -/
structure Path where
  params : StrMap
deriving DecidableEq

/-- `Path::new`. -/
def Path.new (params : StrMap) : Path := ⟨params⟩

/-- `Path::empty`. -/
def Path.empty : Path := ⟨⟨[]⟩⟩

/-- `Path::get`: a parameter as a string slice. -/
def Path.get (p : Path) (key : String) : Option String :=
  p.params.find? key

/-- `Path::get_string`: a parameter as an owned `String`. -/
def Path.get_string (p : Path) (key : String) : Option String :=
  p.params.find? key

/-- `Path::parse::<T>` from `src/server/params.rs` lines 51-62.  The
`FromStr` instance of `T` is the function `fromStr`; `expected` models
`std::any::type_name::<T>()`. -/
def Path.parse {T : Type} (fromStr : String → Option T) (expected : String)
    (p : Path) (key : String) : Except ParamError T :=
  match p.params.find? key with
  | none => .error (.Missing key)
  | some value =>
    match fromStr value with
    | none => .error (.InvalidType key value expected)
    | some t => .ok t

/-- `Path::get_u64` from `src/server/params.rs` lines 65-67. -/
def Path.get_u64 (p : Path) (key : String) : Option Nat :=
  (p.params.find? key).bind parseU64

/-- `Path::contains`. -/
def Path.contains (p : Path) (key : String) : Bool :=
  (p.params.find? key).isSome

/-- `Query` from `src/server/params.rs`: query-string parameters, a
structural duplicate of `Path` as in the source. -/
structure Query where
  params : StrMap
deriving DecidableEq

/-- `Query::new`. -/
def Query.new (params : StrMap) : Query := ⟨params⟩

/-- `Query::empty`. -/
def Query.empty : Query := ⟨⟨[]⟩⟩

/-- `Query::get`. -/
def Query.get (q : Query) (key : String) : Option String :=
  q.params.find? key

/-- `Query::get_string`. -/
def Query.get_string (q : Query) (key : String) : Option String :=
  q.params.find? key

/-- `Query::parse::<T>` from `src/server/params.rs` lines 147-158. -/
def Query.parse {T : Type} (fromStr : String → Option T) (expected : String)
    (q : Query) (key : String) : Except ParamError T :=
  match q.params.find? key with
  | none => .error (.Missing key)
  | some value =>
    match fromStr value with
    | none => .error (.InvalidType key value expected)
    | some t => .ok t

/-- `Query::get_u64`. -/
def Query.get_u64 (q : Query) (key : String) : Option Nat :=
  (q.params.find? key).bind parseU64

/-- `Query::contains`. -/
def Query.contains (q : Query) (key : String) : Bool :=
  (q.params.find? key).isSome

/-- `axum::http::HeaderMap` (external collaborator), modelled as a list of
header name/value pairs.  `Default::default()` is the empty map. -/
structure HeaderMap where
  entries : List (String × String)
deriving DecidableEq

/-- `Default::default()` for `HeaderMap`: the empty header map. -/
def HeaderMap.default : HeaderMap := ⟨[]⟩

/-- `http::Extensions` (external collaborator), the type-keyed request
attribute bag; modelled as a bag of entries keyed by type name.  The
dispatch code only passes it through unchanged. -/
structure Extensions where
  entries : List (String × String)
deriving DecidableEq

/-- `Context<Req>` from `src/context/context.rs` lines 96-111: the
per-request bundle handed to a handler. -/
structure Context (Req : Type) where
  req : Req
  headers : HeaderMap
  path : Path
  query : Query
  extensions : Extensions

/-- `HttpMethod` from `src/server/endpoint.rs` lines 29-38. -/
inductive HttpMethod where
  | GET | POST | PUT | PATCH | DELETE | OPTIONS | HEAD
deriving DecidableEq

/-- `HttpMethod::as_str` from `src/server/endpoint.rs` lines 40-53. -/
def HttpMethod.as_str : HttpMethod → String
  | .GET => "get"
  | .POST => "post"
  | .PUT => "put"
  | .PATCH => "patch"
  | .DELETE => "delete"
  | .OPTIONS => "options"
  | .HEAD => "head"

/-- `QueryParam` from `src/server/endpoint.rs` lines 56-61. -/
structure QueryParam where
  name : String
  description : Option String
  required : Bool
deriving DecidableEq

/-- `PathParam` from `src/server/endpoint.rs` lines 64-69. -/
structure PathParam where
  name : String
  description : Option String
  required : Bool
deriving DecidableEq

/-- `Route` from `src/server/endpoint.rs` lines 136-142: path template,
method and the declared parameter descriptors. -/
structure Route where
  path : String
  method : HttpMethod
  query_params : List QueryParam
  path_params : List PathParam

/-- `ApiKeyLocation`, referenced by `src/server/builder.rs` (its defining
module is not under `src/`); the variants builder.rs matches on. -/
inductive ApiKeyLocation where
  | Header | Query | Cookie
deriving DecidableEq

/-- `SecurityScheme`, referenced by `src/server/builder.rs` (its defining
module is not under `src/`); the variants builder.rs matches on. -/
inductive SecurityScheme where
  | Bearer : SecurityScheme
  | Basic : SecurityScheme
  | ApiKey (name : String) (location : ApiKeyLocation) : SecurityScheme
  | OAuth2 : SecurityScheme
deriving DecidableEq

/-- `ParameterData` (aide, external collaborator): the fields of an OpenAPI
parameter that `param_info_to_query_param` fills in.  `schemaType` is the
"type" field of the attached JSON schema. -/
structure ParameterData where
  name : String
  description : Option String
  required : Bool
  schemaType : String
deriving DecidableEq

/-- `aide::openapi::Parameter` (external collaborator): an OpenAPI operation
parameter together with its location. -/
inductive Parameter where
  | Query (data : ParameterData) : Parameter
  | PathLoc (data : ParameterData) : Parameter
deriving DecidableEq

/-- OpenAPI operation model (aide, external collaborator): the parts of an
operation the registration closure writes.  A security requirement is
recorded by its scheme name. -/
structure Operation where
  parameters : List Parameter
  summary : Option String
  description : Option String
  tags : List String
  security : List String

/-- `Meta` from `src/server/endpoint.rs` lines 327-334, extended with the
`security` list `src/server/builder.rs` reads (`meta.security`), whose
declaring code is not under `src/`.  The response-config callback transforms
the half-built operation. -/
structure Meta where
  summary : Option String
  description : Option String
  tags : List String
  deprecated : Bool
  security : List SecurityScheme
  response_config : Option (Operation → Operation)

/-- `ParamInfo` from `src/server/builder.rs` lines 230-238: the internal
parameter metadata fed to the OpenAPI conversion. -/
structure ParamInfo where
  name : String
  description : Option String
  required : Bool
deriving DecidableEq

/-- `param_info_to_query_param` from `src/server/builder.rs` lines 245-267:
every parameter is emitted as a query-located parameter whose JSON schema is
the literal object with "type" equal to "string". -/
def param_info_to_query_param (param : ParamInfo) : Parameter :=
  .Query { name := param.name
           description := param.description
           required := param.required
           schemaType := "string" }

/-- `security_scheme_name` from `src/server/builder.rs` lines 273-280. -/
def security_scheme_name : SecurityScheme → String
  | .Bearer => "bearerAuth"
  | .Basic => "basicAuth"
  | .ApiKey _ _ => "apiKeyAuth"
  | .OAuth2 => "oauth2Auth"

/-- The OpenAPI annotation closure `ServerBuilder::register` attaches to the
route (the second argument of `get_with` and friends; the closure body is
identical across the method arms of `src/server/builder.rs` lines 541-894):
push each query-parameter descriptor, apply summary, description and tags,
push the security requirements, then run the optional response-config
callback. -/
def annotateOperation (route_def : Route) (meta : Meta) (op : Operation) :
    Operation :=
  -- let summary = meta.summary.unwrap_or("");
  let summary := meta.summary.getD ""
  -- for param in &route_def.query_params { op.parameters.push(...) }
  let op := { op with parameters := op.parameters ++
    route_def.query_params.map (fun (param : QueryParam) =>
      param_info_to_query_param
        { name := param.name
          description := param.description
          required := param.required }) }
  -- op = op.summary(summary);
  let op := { op with summary := some summary }
  -- if let Some(desc) = description { op = op.description(desc); }
  let op := match meta.description with
    | some desc => { op with description := some desc }
    | none => op
  -- for tag in &tags { op = op.tag(tag); }
  let op := { op with tags := op.tags ++ meta.tags }
  -- security requirements, one per scheme, when the list is nonempty
  let op := if meta.security.isEmpty then op
    else { op with security := op.security ++
      meta.security.map (fun scheme => security_scheme_name scheme) }
  -- if let Some(callback) = response_config { op = callback(op); }
  match meta.response_config with
  | some callback => callback op
  | none => op

/-- The aide routing function `register` installs for a route, chosen by
matching on `method.as_str()` (`src/server/builder.rs` lines 518-896). -/
inductive RoutingFn where
  | get_with | post_with | put_with | delete_with | patch_with
deriving DecidableEq

/-- The dispatch-branch selection of `ServerBuilder::register`: the match on
`route_def.method.as_str()`, whose fallback arm installs the route through
`get_with` (`src/server/builder.rs` lines 518, 834-896). -/
def installedRoutingFn (method : HttpMethod) : RoutingFn :=
  match method.as_str with
  | "get" => .get_with
  | "post" => .post_with
  | "put" => .put_with
  | "delete" => .delete_with
  | "patch" => .patch_with
  | _ => .get_with

/-- An incoming HTTP request as the installed closures observe it through
the axum extractors: captured path parameters, parsed query parameters, the
request headers and extensions, and the raw JSON body when one was sent. -/
structure IncomingRequest where
  path_params : StrMap
  query_params : StrMap
  headers : HeaderMap
  extensions : Extensions
  body : Option Json

/-- The request-extraction closures `ServerBuilder::register` installs
(`src/server/builder.rs` lines 518-896), as a function from the incoming
request to the `Context` the handler is invoked with.  `dflt` is
`E::Request::default()` and `decode` is the serde deserialization of the
handler's request type, used by the `axum::Json` extractor.  The GET arm and
the fallback arm build the context with the default request value and never
touch the body; the POST/PUT/DELETE/PATCH arms reject the request before the
handler runs (`none`) when the body is absent or fails to decode.  Every arm
sets the context headers to `Default::default()`. -/
def registerContext {Req : Type} (method : HttpMethod) (dflt : Req)
    (decode : Json → Option Req) (inc : IncomingRequest) :
    Option (Context Req) :=
  let getCtx : Context Req :=
    { req := dflt
      headers := HeaderMap.default
      path := Path.new inc.path_params
      query := Query.new inc.query_params
      extensions := inc.extensions }
  let bodyCtx : Option (Context Req) :=
    match inc.body with
    | none => none
    | some j =>
      (decode j).map (fun payload =>
        { req := payload
          headers := HeaderMap.default
          path := Path.new inc.path_params
          query := Query.new inc.query_params
          extensions := inc.extensions })
  match method.as_str with
  | "get" => some getCtx
  | "post" => bodyCtx
  | "put" => bodyCtx
  | "delete" => bodyCtx
  | "patch" => bodyCtx
  | _ => some getCtx

/-- `ApiServer`, the server entries of the build-time configuration. -/
structure ApiServer where
  url : String
  description : String
deriving DecidableEq

/-- Modelled from the spec: the `App` build-time configuration surface of
section 6 (name, version, bind address, documentation enabled and paths,
server list).  `src/server/builder.rs` consumes `crate::config::App`, whose
defining module is not under `src/`; the fields are exactly those
builder.rs reads. -/
structure App where
  name : String
  description : String
  version : String
  bind : String
  docs : Bool
  docs_path : String
  spec_path : String
  servers : List ApiServer
deriving DecidableEq

/-- The OpenAPI document (aide, external collaborator): the info fields and
server list that `OpenApiConfig::build` fills in. -/
structure OpenApiDoc where
  title : String
  version : String
  description : Option String
  servers : List (String × String)
deriving DecidableEq

/-- `std::net::SocketAddr` (external collaborator): the parsed form of a
bind-address string. -/
structure SocketAddr where
  host : String
  port : Nat
deriving DecidableEq

/-- `LogLevel` from `src/config/logging.rs` lines 10-17. -/
inductive LogLevel where
  | Trace | Debug | Info | Warn | Error
deriving DecidableEq

/-- `LogFormat` from `src/config/logging.rs` lines 34-39. -/
inductive LogFormat where
  | Pretty | Json
deriving DecidableEq

/-- `Logging` from `src/config/logging.rs` lines 61-70: minimum level,
output format and the request-logging switch builder.rs reads. -/
structure Logging where
  level : LogLevel
  format : LogFormat
  log_requests : Bool
deriving DecidableEq

/-- One entry of the routing table: the route path and the aide routing
function it was installed with. -/
structure InstalledRoute where
  path : String
  routing : RoutingFn
deriving DecidableEq

/-- `ServerBuilder` from `src/server/builder.rs` lines 205-211. -/
structure ServerBuilder where
  router : List InstalledRoute
  address : String
  openapi : Option OpenApiDoc
  config : Option App
  logging : Option Logging

/-- `ServerBuilder::default` from `src/server/builder.rs` lines 213-223. -/
def ServerBuilder.default : ServerBuilder :=
  { router := []
    address := "127.0.0.1:3000"
    openapi := none
    config := none
    logging := none }

/-- The server-URL derivation inside `ServerBuilder::with_config`
(`src/server/builder.rs` lines 345-358): `config.bind` starting with
"0.0.0.0:" has the prefix replaced by "http://localhost:" (the drop of 8
characters models `strip and unwrap`), and every other bind string gets an
"http://" scheme. -/
def deriveServerUrl (bind : String) : String :=
  if bind.startsWith "0.0.0.0:" then
    "http://localhost:" ++ bind.drop 8
  else if bind.startsWith "127.0.0.1:" || bind.startsWith "localhost:" then
    "http://" ++ bind
  else
    "http://" ++ bind

/-- `ServerBuilder::with_config` from `src/server/builder.rs` lines 334-373:
copy the bind string into `address` without validating it, set up the
OpenAPI document when docs are enabled (composing `OpenApiConfig::new`,
`.description` and `.server`, flattened here into the resulting document),
and store the config. -/
def ServerBuilder.with_config (b : ServerBuilder) (config : App) :
    ServerBuilder :=
  let openapi :=
    if config.docs then
      some { title := config.name
             version := config.version
             description := some config.description
             servers :=
               if config.servers.isEmpty then
                 [(deriveServerUrl config.bind, "API Server")]
               else
                 config.servers.map (fun s => (s.url, s.description)) }
    else b.openapi
  { b with address := config.bind, openapi := openapi, config := some config }

/-- `ServerBuilder::bind` from `src/server/builder.rs` lines 945-948: store
the address string unvalidated. -/
def ServerBuilder.bind (b : ServerBuilder) (addr : String) : ServerBuilder :=
  { b with address := addr }

/-- `ServerBuilder::register` from `src/server/builder.rs` lines 498-900 at
the routing-table level: `api_route(path, route)` appends one entry whose
routing function is selected by `installedRoutingFn`. -/
def ServerBuilder.register (b : ServerBuilder) (route_def : Route) :
    ServerBuilder :=
  { b with router := b.router ++
      [{ path := route_def.path, routing := installedRoutingFn route_def.method }] }

/-- `Server` from `src/server/builder.rs` lines 132-135. -/
structure Server where
  router : List InstalledRoute
  address : SocketAddr

/-- `ServerBuilder::build` from `src/server/builder.rs` lines 951-1056.
Logging initialization and the trace layer are external side effects and
are omitted.  When an OpenAPI document is present, the documentation routes
(the JSON spec and the UI, both installed via `get_with`) are merged in
front of the router.  Finally the address string is parsed; the
`expect("Invalid bind address")` panic is modelled as the error case.
`parseAddr` models `str::parse::<SocketAddr>` (std, external). -/
def ServerBuilder.build (parseAddr : String → Option SocketAddr)
    (b : ServerBuilder) : Except String Server :=
  let router :=
    match b.openapi with
    | some _ =>
      let docs_path := (b.config.map (fun c => c.docs_path)).getD "/docs"
      let spec_path := (b.config.map (fun c => c.spec_path)).getD "/openapi.json"
      { path := spec_path, routing := RoutingFn.get_with } ::
        { path := docs_path, routing := RoutingFn.get_with } :: b.router
    | none => b.router
  match parseAddr b.address with
  | some address => .ok { router := router, address := address }
  | none => .error "Invalid bind address"

/-- A route declaring one required, described path parameter and no query
parameters, as in `Route::get` plus `path_param` (`src/server/endpoint.rs`). -/
def routeWithPathParam : Route :=
  { path := "/users/:id"
    method := .GET
    query_params := []
    path_params := [{ name := "id", description := some "User ID", required := true }] }

/-- A metadata value with no documentation and no response-config callback. -/
def plainMeta : Meta :=
  { summary := none
    description := none
    tags := []
    deprecated := false
    security := []
    response_config := none }

/-- The half-built operation before annotation: everything empty. -/
def emptyOperation : Operation :=
  { parameters := []
    summary := none
    description := none
    tags := []
    security := [] }

/-- A concrete incoming GET request carrying one header. -/
def requestWithHeader : IncomingRequest :=
  { path_params := ⟨[]⟩
    query_params := ⟨[]⟩
    headers := ⟨[("x-request-id", "abc")]⟩
    extensions := ⟨[]⟩
    body := none }

/-- A concrete socket-address parser accepting exactly one bind string. -/
def parseAddrFixture : String → Option SocketAddr :=
  fun s => if s = "0.0.0.0:8080" then some ⟨"0.0.0.0", 8080⟩ else none

/-- A concrete build-time configuration. -/
def appFixture : App :=
  { name := "Demo"
    description := "demo app"
    version := "1.0.0"
    bind := "0.0.0.0:8080"
    docs := false
    docs_path := "/docs"
    spec_path := "/openapi.json"
    servers := [] }

/-- Claim C1: converting an `ApiResponse` yields exactly the status code
fixed by its tag — Ok 200, Created 201, NoContent 204, BadRequest 400 (with
or without details), Unauthorized 401, Forbidden 403, NotFound 404,
Conflict 409, UnprocessableEntity 422 (with or without details),
InternalError 500, ServiceUnavailable 503 — and the conversion is
deterministic: equal envelopes convert to identical status and body. -/
theorem c1_status_table {T : Type} (x y : T) (msg : String) (d : ErrorDetails)
    (r r' : ApiResponse T) (h : r = r') :
    (ApiResponse.Ok x).into_response.status = 200 ∧
    (ApiResponse.Created y).into_response.status = 201 ∧
    (ApiResponse.NoContent (T := T)).into_response.status = 204 ∧
    (ApiResponse.BadRequest (T := T) msg).into_response.status = 400 ∧
    (ApiResponse.BadRequestWithDetails (T := T) d).into_response.status = 400 ∧
    (ApiResponse.Unauthorized (T := T) msg).into_response.status = 401 ∧
    (ApiResponse.Forbidden (T := T) msg).into_response.status = 403 ∧
    (ApiResponse.NotFound (T := T) msg).into_response.status = 404 ∧
    (ApiResponse.Conflict (T := T) msg).into_response.status = 409 ∧
    (ApiResponse.UnprocessableEntity (T := T) msg).into_response.status = 422 ∧
    (ApiResponse.UnprocessableEntityWithDetails (T := T) d).into_response.status = 422 ∧
    (ApiResponse.InternalError (T := T) msg).into_response.status = 500 ∧
    (ApiResponse.ServiceUnavailable (T := T) msg).into_response.status = 503 ∧
    r.into_response = r'.into_response := by
  subst h
  exact ⟨rfl, rfl, rfl, rfl, rfl, rfl, rfl, rfl, rfl, rfl, rfl, rfl, rfl, rfl⟩

/-- Witness for C1 at a concrete envelope. -/
theorem c1_status_table_witness :
    (ApiResponse.NoContent (T := Nat)).into_response.status = 204 :=
  (c1_status_table 42 42 "boom" ⟨"c", "m", none⟩
    (ApiResponse.Ok 42) (ApiResponse.Ok 42) rfl).2.2.1

/-- Counterexample for C2: the body emitted for `NotFound` has fields
error and message — not code and message — and its error identifier is the
fixed string "not_found", never a caller-supplied code such as
"user_not_found". -/
theorem c2_notfound_body_fields :
    ((ApiResponse.NotFound (T := Unit) "User not found").into_response).status = 404 ∧
    ((ApiResponse.NotFound (T := Unit) "User not found").into_response).body.errorJson =
      some (Json.obj [("error", Json.str "not_found"),
        ("message", Json.str "User not found")]) ∧
    (Json.obj [("error", Json.str "not_found"),
      ("message", Json.str "User not found")]).lookup "code" = none ∧
    (Json.obj [("error", Json.str "not_found"),
      ("message", Json.str "User not found")]).fieldNames = ["error", "message"] :=
  ⟨rfl, rfl, rfl, rfl⟩

/-- Claim C2 (amended): every error-tagged envelope produces a JSON body
whose fields are error and message, plus details when present; `NotFound
msg` yields status 404 with the body error "not_found" and message msg; and
no error tag produces an empty body or status 204. -/
theorem c2_error_body_shape {T : Type} (r : ApiResponse T) (msg : String)
    (h : r.isError = true) :
    (∃ j, r.into_response.body.errorJson = some j ∧
      (j.fieldNames = ["error", "message"] ∨
        j.fieldNames = ["error", "message", "details"])) ∧
    r.into_response.status ≠ 204 ∧
    r.into_response.body ≠ WireBody.empty ∧
    (ApiResponse.NotFound (T := T) msg).into_response =
      ⟨404, .simple ⟨"not_found", msg⟩⟩ := by
  refine ⟨?_, ?_, ?_, rfl⟩
  · cases r with
    | Ok _ => simp [ApiResponse.isError] at h
    | Created _ => simp [ApiResponse.isError] at h
    | NoContent => simp [ApiResponse.isError] at h
    | BadRequestWithDetails d =>
      refine ⟨d.toJson, rfl, ?_⟩
      cases hd : d.details <;> simp [ErrorDetails.toJson, Json.fieldNames, hd]
    | UnprocessableEntityWithDetails d =>
      refine ⟨d.toJson, rfl, ?_⟩
      cases hd : d.details <;> simp [ErrorDetails.toJson, Json.fieldNames, hd]
    | _ => exact ⟨_, rfl, Or.inl rfl⟩
  · cases r <;> simp [ApiResponse.isError] at h <;>
      simp [ApiResponse.into_response]
  · cases r <;> simp [ApiResponse.isError] at h <;>
      simp [ApiResponse.into_response]

/-- Witness for C2 (amended) at a concrete error envelope. -/
theorem c2_error_body_shape_witness :
    (ApiResponse.NotFound (T := Unit) "missing").into_response.status ≠ 204 :=
  (c2_error_body_shape (ApiResponse.NotFound (T := Unit) "missing") "missing" rfl).2.1

/-- Counterexample for C3: annotating an operation for a route that declares
one path parameter and no query parameters emits no operation parameters at
all — path descriptors are never pushed. -/
theorem c3_path_params_not_pushed :
    routeWithPathParam.path_params ≠ [] ∧
    (annotateOperation routeWithPathParam plainMeta emptyOperation).parameters = [] := by
  exact ⟨by simp [routeWithPathParam], rfl⟩

/-- Claim C3 (amended): the annotation closure pushes exactly the
query-parameter descriptors — each as a query-located operation parameter
carrying the descriptor's name, description and required flag, always with
schema type "string" — and ignores the path-parameter descriptors. -/
theorem c3_query_params_only (route_def : Route) (meta : Meta) (op : Operation)
    (h : meta.response_config = none) :
    (annotateOperation route_def meta op).parameters =
      op.parameters ++ route_def.query_params.map (fun (param : QueryParam) =>
        Parameter.Query { name := param.name
                          description := param.description
                          required := param.required
                          schemaType := "string" }) := by
  unfold annotateOperation
  rw [h]
  cases hd : meta.description <;>
    cases hs : meta.security.isEmpty <;>
      simp [param_info_to_query_param, hs]

/-- Witness for C3 (amended) at a concrete route and metadata. -/
theorem c3_query_params_only_witness :
    (annotateOperation routeWithPathParam plainMeta emptyOperation).parameters =
      emptyOperation.parameters ++
        routeWithPathParam.query_params.map (fun (param : QueryParam) =>
          Parameter.Query { name := param.name
                            description := param.description
                            required := param.required
                            schemaType := "string" }) :=
  c3_query_params_only routeWithPathParam plainMeta emptyOperation rfl

/-- Claim C4: for a GET endpoint the installed closure never decodes the
body — the handler context is built with the request type's default value,
for every incoming request (body present or not) and every decoder, and
dispatch always succeeds. -/
theorem c4_get_uses_default_request {Req : Type} (dflt : Req)
    (decode : Json → Option Req) (inc : IncomingRequest) :
    registerContext HttpMethod.GET dflt decode inc =
      some { req := dflt
             headers := HeaderMap.default
             path := Path.new inc.path_params
             query := Query.new inc.query_params
             extensions := inc.extensions } := rfl

/-- Claim C5: a route whose method is OPTIONS or HEAD is installed through
the fallback arm as a GET route, and its handler receives the default
request value with no body decoding. -/
theorem c5_unrecognized_method_falls_back {Req : Type} (dflt : Req)
    (decode : Json → Option Req) (inc : IncomingRequest) :
    installedRoutingFn HttpMethod.OPTIONS = RoutingFn.get_with ∧
    installedRoutingFn HttpMethod.HEAD = RoutingFn.get_with ∧
    registerContext HttpMethod.OPTIONS dflt decode inc =
      registerContext HttpMethod.GET dflt decode inc ∧
    registerContext HttpMethod.HEAD dflt decode inc =
      registerContext HttpMethod.GET dflt decode inc ∧
    (registerContext HttpMethod.OPTIONS dflt decode inc).map
      (fun ctx => ctx.req) = some dflt ∧
    (registerContext HttpMethod.HEAD dflt decode inc).map
      (fun ctx => ctx.req) = some dflt :=
  ⟨rfl, rfl, rfl, rfl, rfl, rfl⟩

/-- Claim C6: for both parameter stores, `parse` returns the missing-kind
error iff `get` is none, returns the invalid-type error — carrying the key,
the offending raw value and the target type name — iff `get` holds a value
that fails to parse, and returns the parsed value otherwise. -/
theorem c6_parse_error_taxonomy {T : Type} (fromStr : String → Option T)
    (expected : String) (p : Path) (q : Query) (key : String) :
    (Path.parse fromStr expected p key = .error (.Missing key) ↔
      Path.get p key = none) ∧
    (∀ v, Path.parse fromStr expected p key =
        .error (.InvalidType key v expected) ↔
      (Path.get p key = some v ∧ fromStr v = none)) ∧
    (∀ t v, Path.get p key = some v → fromStr v = some t →
      Path.parse fromStr expected p key = .ok t) ∧
    (Query.parse fromStr expected q key = .error (.Missing key) ↔
      Query.get q key = none) ∧
    (∀ v, Query.parse fromStr expected q key =
        .error (.InvalidType key v expected) ↔
      (Query.get q key = some v ∧ fromStr v = none)) ∧
    (∀ t v, Query.get q key = some v → fromStr v = some t →
      Query.parse fromStr expected q key = .ok t) := by
  refine ⟨?_, ?_, ?_, ?_, ?_, ?_⟩
  · rcases hg : p.params.find? key with _ | w
    · simp [Path.parse, Path.get, hg]
    · rcases hf : fromStr w with _ | t <;> simp [Path.parse, Path.get, hg, hf]
  · intro v
    rcases hg : p.params.find? key with _ | w
    · simp [Path.parse, Path.get, hg]
    · rcases hf : fromStr w with _ | t
      · simp only [Path.parse, Path.get, hg, hf]
        constructor
        · intro hinj
          injection hinj with hinj
          injection hinj with h1 h2 h3
          subst h2
          exact ⟨rfl, hf⟩
        · rintro ⟨h1, h2⟩
          injection h1 with h1
          subst h1
          rfl
      · simp only [Path.parse, Path.get, hg, hf]
        constructor
        · intro hinj
          exact Except.noConfusion hinj
        · rintro ⟨h1, h2⟩
          injection h1 with h1
          subst h1
          rw [hf] at h2
          exact Option.noConfusion h2
  · intro t v hget hfv
    have h1 : p.params.find? key = some v := hget
    simp [Path.parse, h1, hfv]
  · rcases hg : q.params.find? key with _ | w
    · simp [Query.parse, Query.get, hg]
    · rcases hf : fromStr w with _ | t <;> simp [Query.parse, Query.get, hg, hf]
  · intro v
    rcases hg : q.params.find? key with _ | w
    · simp [Query.parse, Query.get, hg]
    · rcases hf : fromStr w with _ | t
      · simp only [Query.parse, Query.get, hg, hf]
        constructor
        · intro hinj
          injection hinj with hinj
          injection hinj with h1 h2 h3
          subst h2
          exact ⟨rfl, hf⟩
        · rintro ⟨h1, h2⟩
          injection h1 with h1
          subst h1
          rfl
      · simp only [Query.parse, Query.get, hg, hf]
        constructor
        · intro hinj
          exact Except.noConfusion hinj
        · rintro ⟨h1, h2⟩
          injection h1 with h1
          subst h1
          rw [hf] at h2
          exact Option.noConfusion h2
  · intro t v hget hfv
    have h1 : q.params.find? key = some v := hget
    simp [Query.parse, h1, hfv]

/-- Witness for C6 at a concrete store, key and parser. -/
theorem c6_parse_error_taxonomy_witness :
    Path.parse parseU64 "u64" (Path.new ⟨[("id", "42")]⟩) "id" = .ok 42 :=
  (c6_parse_error_taxonomy parseU64 "u64" (Path.new ⟨[("id", "42")]⟩)
    Query.empty "id").2.2.1 42 "42" rfl rfl

/-- Counterexample for C7: no envelope value converts to any redirect
status — the redirect family claimed by the spec does not exist in
`ApiResponse`. -/
theorem c7_no_redirect_family :
    ¬ ∃ r : ApiResponse Unit,
      r.into_response.status = 301 ∨ r.into_response.status = 302 ∨
      r.into_response.status = 303 ∨ r.into_response.status = 307 ∨
      r.into_response.status = 308 := by
  rintro ⟨r, h⟩
  cases r <;> simp [ApiResponse.into_response] at h

/-- Claim C7 (amended): `ApiResponse` contains no redirect family and no
caller-supplied-status tags; the statuses reachable from `into_response`
are exactly 200, 201, 204, 400, 401, 403, 404, 409, 422, 500 and 503. -/
theorem c7_statuses_fixed {T : Type} (r : ApiResponse T) :
    r.into_response.status ∈ uncovrStatuses ∧
    ∀ s, s ∈ uncovrStatuses →
      ∃ r' : ApiResponse Unit, r'.into_response.status = s := by
  constructor
  · cases r <;> simp [ApiResponse.into_response, uncovrStatuses]
  · intro s hs
    simp [uncovrStatuses] at hs
    rcases hs with h | h | h | h | h | h | h | h | h | h | h <;> subst h
    · exact ⟨.Ok (), rfl⟩
    · exact ⟨.Created (), rfl⟩
    · exact ⟨.NoContent, rfl⟩
    · exact ⟨.BadRequest "", rfl⟩
    · exact ⟨.Unauthorized "", rfl⟩
    · exact ⟨.Forbidden "", rfl⟩
    · exact ⟨.NotFound "", rfl⟩
    · exact ⟨.Conflict "", rfl⟩
    · exact ⟨.UnprocessableEntity "", rfl⟩
    · exact ⟨.InternalError "", rfl⟩
    · exact ⟨.ServiceUnavailable "", rfl⟩

/-- Witness for C7 (amended) at a concrete status. -/
theorem c7_statuses_fixed_witness :
    ∃ r' : ApiResponse Unit, r'.into_response.status = 204 :=
  (c7_statuses_fixed (ApiResponse.NoContent (T := Unit))).2 204 (by decide)

/-- Claim C8 (code bug): dispatch builds every handler context with
`Default::default()` headers, so a request carrying a header reaches the
handler with an empty header map instead of its own header map. -/
theorem c8_headers_not_propagated :
    requestWithHeader.headers ≠ HeaderMap.default ∧
    (registerContext HttpMethod.GET () (fun _ => none) requestWithHeader).map
      (fun ctx => ctx.headers) = some HeaderMap.default :=
  ⟨by decide, rfl⟩

/-- Claim C9: a parameter store built from a raw string map returns via
`get` exactly the raw string stored for the key, `get_u64` succeeds exactly
when that raw string parses as a u64 — and for the map binding id to "42",
`get_u64 "id"` returns `some 42`. -/
theorem c9_param_store_round_trip (m : StrMap) (key : String) :
    Path.get (Path.new m) key = m.find? key ∧
    Query.get (Query.new m) key = m.find? key ∧
    (∀ n, Path.get_u64 (Path.new m) key = some n ↔
      ∃ v, m.find? key = some v ∧ parseU64 v = some n) ∧
    Path.get_u64 (Path.new ⟨[("id", "42")]⟩) "id" = some 42 := by
  refine ⟨rfl, rfl, ?_, rfl⟩
  intro n
  simp [Path.get_u64, Path.new, Option.bind_eq_some]

/-- Witness for C9 at the concrete scenario map. -/
theorem c9_param_store_round_trip_witness :
    Path.get_u64 (Path.new ⟨[("id", "42")]⟩) "id" = some 42 :=
  (c9_param_store_round_trip ⟨[("id", "42")]⟩ "id").2.2.2

/-- Claim C10: `bind` and `with_config` store the raw address string
without validation; `build` fails with the invalid-bind-address panic
exactly when the stored string does not parse, and otherwise returns a
server carrying the parsed address. -/
theorem c10_build_time_address_validation
    (parseAddr : String → Option SocketAddr) (b : ServerBuilder)
    (addr : String) (cfg : App) :
    (ServerBuilder.bind b addr).address = addr ∧
    (ServerBuilder.with_config b cfg).address = cfg.bind ∧
    (parseAddr b.address = none →
      ServerBuilder.build parseAddr b = .error "Invalid bind address") ∧
    (∀ a, parseAddr b.address = some a →
      ∃ s, ServerBuilder.build parseAddr b = .ok s ∧ s.address = a) := by
  refine ⟨rfl, rfl, ?_, ?_⟩
  · intro h
    simp [ServerBuilder.build, h]
  · intro a h
    cases hopen : b.openapi <;>
      simp [ServerBuilder.build, h, hopen]

/-- Witness for C10 at a concrete parser and builder. -/
theorem c10_build_time_address_validation_witness :
    ServerBuilder.build parseAddrFixture ServerBuilder.default =
      .error "Invalid bind address" ∧
    ∃ s, ServerBuilder.build parseAddrFixture
        (ServerBuilder.bind ServerBuilder.default "0.0.0.0:8080") = .ok s ∧
      s.address = ⟨"0.0.0.0", 8080⟩ :=
  ⟨(c10_build_time_address_validation parseAddrFixture ServerBuilder.default
      "x" appFixture).2.2.1 rfl,
   (c10_build_time_address_validation parseAddrFixture
      (ServerBuilder.bind ServerBuilder.default "0.0.0.0:8080")
      "x" appFixture).2.2.2 ⟨"0.0.0.0", 8080⟩ rfl⟩

end Uncovr
